import Mathlib

/-!
Verification of `map_gpt_embeddings/mappers.py` (`GPTEmbeddingMapper`): a
singer-style mapper that splits document records into text segments and
annotates each segment with an embedding vector obtained from the OpenAI
embeddings endpoint.

The Python dictionaries carried by the mapper are embedded as association
lists with Python-dict insert/lookup semantics; JSON values as an inductive
type; the external collaborators (the langchain text splitter and the OpenAI
HTTP endpoint) as oracles passed in as function parameters, matching the
spec's treatment of them as black boxes.
-/

namespace MapGptEmbeddings

/-- Association list with Python-dict semantics: keys are strings, an
insert on an existing key updates it in place, otherwise appends. -/
abbrev Dict (α : Type) : Type := List (String × α)

/-- The empty dict (Python `{}`). -/
def Dict.empty {α : Type} : Dict α := ([] : List (String × α))

/-- Python `d[k]` / `d.get(k)`: first (and, for well-formed dicts, only)
binding of the key. -/
def Dict.get? {α : Type} : Dict α → String → Option α
  | [], _ => none
  | (k₁, v) :: rest, k => if k₁ = k then some v else Dict.get? rest k

/-- Python `d[k] = v`: update the existing binding in place, else append. -/
def Dict.insert {α : Type} : Dict α → String → α → Dict α
  | [], k, v => [(k, v)]
  | (k₁, v₁) :: rest, k, v =>
    if k₁ = k then (k, v) :: rest else (k₁, v₁) :: Dict.insert rest k v

/-- Python `k in d`. -/
def Dict.contains {α : Type} (d : Dict α) (k : String) : Bool :=
  (d.get? k).isSome

/-- JSON values: the payloads of singer records, schema type descriptors and
configuration entries.  Embedding-vector floats are carried as exact
rationals; the mapper never computes with them, it only moves them. -/
inductive JsonVal : Type where
  | str : String → JsonVal
  | int : Int → JsonVal
  | num : Rat → JsonVal
  | bool : Bool → JsonVal
  | null : JsonVal
  | arr : List JsonVal → JsonVal
  | obj : List (String × JsonVal) → JsonVal

/-- The mapper's configuration surface (§6 of the spec; `config_jsonschema`
plus the keys read via `self.config.get`).  `document_text_property` and
`document_metadata_property` always resolve (the framework fills their
defaults `"page_content"` / `"metadata"`), the rest are optional. -/
structure Config : Type where
  document_text_property : String
  document_metadata_property : String
  openai_api_key : Option String
  split_documents : Option Bool
  splitter_config : Option (Dict JsonVal)

/-- Errors raised by the OpenAI client (`openai.error`): the rate-limit
error the mapper catches, and everything else, which it lets propagate. -/
inductive OpenAIErr : Type where
  | rateLimit : String → OpenAIErr
  | other : String → OpenAIErr

/-- Python exceptions observable from the mapper. -/
inductive PyErr : Type where
  | keyError : String → PyErr
  | typeError : String → PyErr
  | indexError : PyErr
  | openai : OpenAIErr → PyErr
  | abortedSyncFailed : String → PyErr
  | configValidationError : String → PyErr

/-- One element of the `data` array of an OpenAI embeddings response. -/
structure EmbeddingEntry : Type where
  embedding : List Rat

/-- The shape of an OpenAI embeddings response that `get_embeddings`
consumes: `response_dict["data"]`. -/
structure EmbeddingResponse : Type where
  data : List EmbeddingEntry

/-- The remote embeddings endpoint as an oracle: `openai.Embedding.create`
applied to `(input, model, api_key)`.  One invocation is one outbound call. -/
def EmbedAPI : Type := List String → String → Option String → Except OpenAIErr EmbeddingResponse

/-- The langchain `RecursiveCharacterTextSplitter` as an oracle: built from
the effective splitter configuration, it maps the raw document text to the
ordered list of segment texts.  The spec treats the chunking algorithm as a
black box with a size/overlap contract. -/
def SplitterOracle : Type := Dict JsonVal → JsonVal → List String

/-- Line 170, `text = text.replace("\n", " ")`: every newline character is
replaced by a single space, character-for-character. -/
def replaceNewlines (s : String) : String :=
  ⟨s.data.map (fun c => if c = '\n' then ' ' else c)⟩

/-- Lines 170-172: the `input` payload the mapper submits to the endpoint,
`input=[text]` after newline replacement. -/
def submittedInput (text : String) : List String :=
  [replaceNewlines text]

/-- `GPTEmbeddingMapper.get_embeddings` (lines 132-174): replace newlines,
call the endpoint with `input=[text]`, extract `data[0].embedding`.  A
rate-limit failure surfaces as the openai exception (caught by the caller);
an empty `data` array would be Python's `IndexError`. -/
def get_embeddings (api : EmbedAPI) (text : String) (api_key : Option String)
    (model : String) : Except PyErr (List Rat) :=
  match api (submittedInput text) model api_key with
  | .error e => .error (.openai e)
  | .ok resp =>
    match resp.data with
    | [] => .error .indexError
    | d :: _ => .ok d.embedding

/-- `self.name` (line 21). -/
def name : String := "map-openai-embeddings"

/-- `self.name.upper().replace("-", "_")` from the f-string at line 87. -/
def pluginEnvPrefix : String :=
  ⟨(name.data.map Char.toUpper).map (fun c => if c = '-' then '_' else c)⟩

/-- The message of the `ConfigValidationError` raised at lines 85-89 (the
double space before the last source is the source's own concatenation). -/
def missingKeyMessage : String :=
  "Must set at least one of the following: `openai_api_key` setting, `" ++
    pluginEnvPrefix ++ "_OPEN_API_KEY` env var, or  `OPENAI_API_KEY` env var."

/-- `GPTEmbeddingMapper._validate_config` (lines 62-89).  `env` is the set
of names bound in `os.environ`.  `super()._validate_config` is the external
plugin framework's JSON-schema validation of the config (an external
collaborator per the spec); the method discards its result.  The method
body has no `return` statement, so a non-raising call returns Python
`None` (`Option.none` here), despite the annotated `tuple` return type. -/
def _validate_config (cfg : Config) (env : List String)
    (raise_errors : Bool) (_warnings_as_errors : Bool) :
    Except PyErr (Option (List String × List String)) :=
  if raise_errors && cfg.openai_api_key.isNone && !(env.contains "OPENAI_API_KEY") then
    .error (.configValidationError missingKeyMessage)
  else
    .ok none

/-- `th.ArrayType(th.NumberType).to_dict()` (line 30): the JSON-schema type
descriptor for an array of numbers, produced by the external singer-sdk
typing helper. -/
def arrayOfNumbersDescriptor : JsonVal :=
  .obj [("type", .str "array"), ("items", .obj [("type", .arr [.str "number"])])]

/-- `th.ObjectType().to_dict()` (line 35): descriptor for a free-form object. -/
def objectTypeDescriptor : JsonVal :=
  .obj [("type", .str "object"), ("properties", .obj [])]

/-- `th.IntegerType().to_dict()` (line 38): descriptor for an integer. -/
def integerTypeDescriptor : JsonVal :=
  .obj [("type", .arr [.str "integer"])]

/-- A singer schema message as the mapper manipulates it:
`result.schema["properties"]` and `result.key_properties` explicit, every
other field of the message in `rest`, carried through untouched. -/
structure SchemaMessage : Type where
  properties : Dict JsonVal
  key_properties : List String
  rest : Dict JsonVal

/-- Modelled from the spec: `BasicPassthroughMapper.map_schema_message`
(`sdk_fixes/mapper_base.py`, not under `src/`) — the passthrough base
mapper yields each incoming schema message once, unchanged ("Emit the
modified schema once per input schema message", §2). -/
def basicPassthroughSchema (message : SchemaMessage) : List SchemaMessage :=
  [message]

/-- `GPTEmbeddingMapper.map_schema_message` (lines 23-41): for each message
yielded by the base mapper, add `embeddings`, add the configured metadata
property when absent, add `segment_number`, and append `segment_number` to
the key properties. -/
def map_schema_message (cfg : Config) (message : SchemaMessage) : List SchemaMessage :=
  (basicPassthroughSchema message).map (fun result =>
    let properties := result.properties
    let properties := properties.insert "embeddings" arrayOfNumbersDescriptor
    let metadata_property := cfg.document_metadata_property
    let properties :=
      if properties.contains metadata_property then properties
      else properties.insert metadata_property objectTypeDescriptor
    let properties := properties.insert "segment_number" integerTypeDescriptor
    { result with
        properties := properties,
        key_properties := result.key_properties ++ ["segment_number"] })

/-- What one full iteration of the `split_record` generator (lines 91-130)
makes observable: the dicts it yields, the value carried by its final
`StopIteration` (line 104's `return record`; Python `for` loops discard
it), and the configuration afterwards (the defaults written into
`splitter_config` at lines 107-110 mutate the config's own nested dict
in place whenever `splitter_config` is present in the config, because
line 106 aliases it rather than copying). -/
structure SplitOutcome : Type where
  yielded : List (Dict JsonVal)
  retValue : Option (Dict JsonVal)
  config : Config

/-- Lines 106-110: the splitter configuration actually handed to
`RecursiveCharacterTextSplitter` — the configured `splitter_config` (or a
fresh `{}` when absent) with `chunk_size = 1000` and `chunk_overlap = 200`
filled in when missing. -/
def effectiveSplitterConfig (cfg : Config) : Dict JsonVal :=
  let splitter_config := cfg.splitter_config.getD Dict.empty
  let splitter_config :=
    if splitter_config.contains "chunk_size" then splitter_config
    else splitter_config.insert "chunk_size" (.int 1000)
  if splitter_config.contains "chunk_overlap" then splitter_config
  else splitter_config.insert "chunk_overlap" (.int 200)

/-- The configuration as it stands after the splitting path of
`split_record` ran: line 106 aliases the nested `splitter_config` dict,
so the default-filling at lines 107-110 mutates the configuration itself
whenever `splitter_config` is present; when it is absent, `config.get`
returned a fresh `{}` and the configuration is untouched. -/
def configAfterSplit (cfg : Config) : Config :=
  match cfg.splitter_config with
  | some _ => { cfg with splitter_config := some (effectiveSplitterConfig cfg) }
  | none => cfg

/-- `GPTEmbeddingMapper.split_record` (lines 91-130).  The unguarded text
lookup at line 100 raises `KeyError` when the configured text property is
missing.  The langchain splitter is the `splitter` oracle, applied to the
effective splitter configuration and the raw text; segment documents carry
the record's metadata ("Metadata is propagated to every segment", §4.3). -/
def split_record (splitter : SplitterOracle) (cfg : Config) (record : Dict JsonVal) :
    Except PyErr SplitOutcome :=
  match record.get? cfg.document_text_property with
  | none => .error (.keyError cfg.document_text_property)
  | some raw_document_text =>
    let metadata_dict := (record.get? cfg.document_metadata_property).getD (.obj [])
    if (cfg.split_documents.getD true) = false then
      .ok ⟨[], some record, cfg⟩
    else
      let document_segments := splitter (effectiveSplitterConfig cfg) raw_document_text
      let yielded := document_segments.enum.map (fun p =>
        ((record.insert cfg.document_text_property (.str p.2)).insert
            cfg.document_metadata_property metadata_dict).insert
          "segment_number" (.int p.1))
      .ok ⟨yielded, none, configAfterSplit cfg⟩

/-- A singer record message dict as `map_record_message` manipulates it:
its `"record"` entry explicit, every other entry in `rest`, copied
verbatim by `message_dict.copy()` (line 189).  `RecordMessage.from_dict`
(`sdk_fixes/messages.py`, not under `src/`) is modelled from the spec as
the identity re-packaging of the same message shape (§6: downstream
protocol is "same two message shapes"). -/
structure RecordMessageDict : Type where
  record : Dict JsonVal
  rest : Dict JsonVal

/-- Lines 179-183 for a single split record: look up the configured text
property and fetch its embedding with the configured API key. -/
def embedSplitRecord (api : EmbedAPI) (cfg : Config) (split : Dict JsonVal) :
    Except PyErr (List Rat) :=
  match split.get? cfg.document_text_property with
  | none => .error (.keyError cfg.document_text_property)
  | some (.str s) => get_embeddings api s cfg.openai_api_key "text-embedding-ada-002"
  | some _ => .error (.typeError "document text is not a string")

/-- The `for` loop of `map_record_message` (lines 177-192) over the
records yielded by `split_record`: embed each in order and emit a copy of
the message with the enriched record; translate a rate-limit error into
`AbortedSyncFailedException` embedding the original message; let any other
error propagate.  Messages emitted before a failure stay emitted. -/
def emitSegments (api : EmbedAPI) (cfg : Config) (message_dict : RecordMessageDict) :
    List (Dict JsonVal) → List RecordMessageDict × Option PyErr
  | [] => ([], none)
  | split :: rest =>
    match embedSplitRecord api cfg split with
    | .error (.openai (.rateLimit m)) =>
      ([], some (.abortedSyncFailed
        ("Sync aborted due to OpenAI rate limit reached. Error message:\n" ++ m)))
    | .error e => ([], some e)
    | .ok vec =>
      let new_record := split.insert "embeddings" (.arr (vec.map .num))
      let new_message := { message_dict with record := new_record }
      let step := emitSegments api cfg message_dict rest
      (new_message :: step.1, step.2)

/-- `GPTEmbeddingMapper.map_record_message` (lines 176-192): returns the
messages emitted for this record message, the configuration afterwards,
and the error (if any) that stopped the iteration. -/
def map_record_message (splitter : SplitterOracle) (api : EmbedAPI) (cfg : Config)
    (message_dict : RecordMessageDict) :
    List RecordMessageDict × Config × Option PyErr :=
  match split_record splitter cfg message_dict.record with
  | .error e => ([], cfg, some e)
  | .ok out =>
    let step := emitSegments api out.config message_dict out.yielded
    (step.1, out.config, step.2)

/-- Modelled from the spec: the plugin framework's drive loop (§5, not
under `src/`) — strictly sequential, one record message fully processed
and its outputs emitted before the next is read; a raised error stops the
run and messages already emitted remain emitted. -/
def processRecordMessages (splitter : SplitterOracle) (api : EmbedAPI) :
    Config → List RecordMessageDict → List RecordMessageDict × Config × Option PyErr
  | cfg, [] => ([], cfg, none)
  | cfg, message_dict :: rest =>
    let step := map_record_message splitter api cfg message_dict
    match step.2.2 with
    | some e => (step.1, step.2.1, some e)
    | none =>
      let tail := processRecordMessages splitter api step.2.1 rest
      (step.1 ++ tail.1, tail.2.1, tail.2.2)

/-! Concrete fixtures used to instantiate the theorems. -/

/-- A configuration as the framework delivers it when only the defaults
apply: `page_content` / `metadata`, an explicit API key, nothing else. -/
def defaultedConfig : Config :=
  ⟨"page_content", "metadata", some "sk-test", none, none⟩

/-- Same, with `split_documents` explicitly set to `False`. -/
def cfgNoSplit : Config :=
  ⟨"page_content", "metadata", some "sk-test", some false, none⟩

/-- A configuration with no `openai_api_key` setting. -/
def cfgNoKey : Config :=
  ⟨"page_content", "metadata", none, none, none⟩

/-- A configuration carrying an (empty) `splitter_config` object. -/
def cfgEmptySplitter : Config :=
  ⟨"page_content", "metadata", some "sk-test", none, some Dict.empty⟩

/-- A record with only the default text property. -/
def recHello : Dict JsonVal := [("page_content", .str "hello world")]

/-- A record without the default text property. -/
def recNoText : Dict JsonVal := [("other", .str "x")]

/-- A splitter oracle that returns the whole text as the only segment. -/
def oneChunkSplitter : SplitterOracle :=
  fun _ raw => match raw with
  | .str s => [s]
  | _ => []

/-- A splitter oracle that produces no segments at all. -/
def emptySplitter : SplitterOracle := fun _ _ => []

/-- An embeddings endpoint oracle that answers every request with one fixed
two-dimensional vector. -/
def fixedApi : EmbedAPI :=
  fun _ _ _ => .ok ⟨[⟨[(1 : Rat), (2 : Rat)]⟩]⟩

/-- A splitter oracle that always cuts the document into two fixed
segments. -/
def twoChunkSplitter : SplitterOracle := fun _ _ => ["alpha", "beta"]

/-- An embeddings endpoint oracle that rate-limits the request for
`"beta"` and answers everything else with a fixed vector. -/
def rateLimitOnBetaApi : EmbedAPI :=
  fun input _ _ =>
    if input = ["beta"] then .error (.rateLimit "quota exhausted")
    else .ok ⟨[⟨[(1 : Rat), (2 : Rat)]⟩]⟩

/-- The first record `split_record` yields for `recHello` under
`twoChunkSplitter` and the defaulted configuration. -/
def segAlphaRecord : Dict JsonVal :=
  [("page_content", .str "alpha"), ("metadata", .obj []), ("segment_number", .int 0)]

/-- The second such record. -/
def segBetaRecord : Dict JsonVal :=
  [("page_content", .str "beta"), ("metadata", .obj []), ("segment_number", .int 1)]

/-! Helper lemmas about the record path, shared by several theorems. -/

theorem Dict.get?_insert_self {α : Type} (d : Dict α) (k : String) (v : α) :
    (d.insert k v).get? k = some v := by
  induction d with
  | nil => simp [Dict.insert, Dict.get?]
  | cons hd tl ih =>
    obtain ⟨k₁, v₁⟩ := hd
    by_cases hk : k₁ = k
    · simp [Dict.insert, Dict.get?, hk]
    · simp [Dict.insert, Dict.get?, hk, ih]

theorem Dict.get?_insert_ne {α : Type} (d : Dict α) (k k₂ : String) (v : α)
    (h : k₂ ≠ k) : (d.insert k v).get? k₂ = d.get? k₂ := by
  have h₁ : ¬ (k = k₂) := fun hk => h hk.symm
  induction d with
  | nil => simp [Dict.insert, Dict.get?, h₁]
  | cons hd tl ih =>
    obtain ⟨k₁, v₁⟩ := hd
    by_cases hk : k₁ = k
    · subst hk
      simp [Dict.insert, Dict.get?, h₁]
    · simp [Dict.insert, Dict.get?, hk, ih]

theorem emitSegments_cons (api : EmbedAPI) (cfg : Config)
    (message_dict : RecordMessageDict) (s : Dict JsonVal) (rest : List (Dict JsonVal)) :
    emitSegments api cfg message_dict (s :: rest) =
      match embedSplitRecord api cfg s with
      | .error (.openai (.rateLimit m)) =>
        ([], some (.abortedSyncFailed
          ("Sync aborted due to OpenAI rate limit reached. Error message:\n" ++ m)))
      | .error e => ([], some e)
      | .ok vec =>
        ({ message_dict with record := s.insert "embeddings" (.arr (vec.map .num)) } ::
          (emitSegments api cfg message_dict rest).1,
          (emitSegments api cfg message_dict rest).2) := rfl

theorem processRecordMessages_cons (splitter : SplitterOracle) (api : EmbedAPI)
    (cfg : Config) (message_dict : RecordMessageDict) (rest : List RecordMessageDict) :
    processRecordMessages splitter api cfg (message_dict :: rest) =
      match (map_record_message splitter api cfg message_dict).2.2 with
      | some e => ((map_record_message splitter api cfg message_dict).1,
          (map_record_message splitter api cfg message_dict).2.1, some e)
      | none =>
        ((map_record_message splitter api cfg message_dict).1 ++
            (processRecordMessages splitter api
              (map_record_message splitter api cfg message_dict).2.1 rest).1,
          (processRecordMessages splitter api
            (map_record_message splitter api cfg message_dict).2.1 rest).2.1,
          (processRecordMessages splitter api
            (map_record_message splitter api cfg message_dict).2.1 rest).2.2) := rfl

theorem configAfterSplit_document_text_property (cfg : Config) :
    (configAfterSplit cfg).document_text_property = cfg.document_text_property := by
  unfold configAfterSplit
  cases cfg.splitter_config <;> rfl

theorem configAfterSplit_document_metadata_property (cfg : Config) :
    (configAfterSplit cfg).document_metadata_property = cfg.document_metadata_property := by
  unfold configAfterSplit
  cases cfg.splitter_config <;> rfl

theorem configAfterSplit_openai_api_key (cfg : Config) :
    (configAfterSplit cfg).openai_api_key = cfg.openai_api_key := by
  unfold configAfterSplit
  cases cfg.splitter_config <;> rfl

/-- When every split record embeds successfully, the emission loop raises
nothing and emits, in order, one enriched copy of the message per split. -/
theorem emitSegments_all_ok (api : EmbedAPI) (cfg : Config)
    (message_dict : RecordMessageDict) (splits : List (Dict JsonVal))
    (h : ∀ s ∈ splits, ∃ v, embedSplitRecord api cfg s = .ok v) :
    (emitSegments api cfg message_dict splits).2 = none ∧
    (emitSegments api cfg message_dict splits).1.length = splits.length ∧
    ∀ i, i < splits.length →
      ∃ v, embedSplitRecord api cfg (splits.getD i []) = .ok v ∧
        (emitSegments api cfg message_dict splits).1[i]? =
          some { message_dict with
                   record := (splits.getD i []).insert "embeddings" (.arr (v.map .num)) } := by
  induction splits with
  | nil => simp [emitSegments]
  | cons s rest ih =>
    obtain ⟨v, hv⟩ := h s (List.mem_cons_self s rest)
    obtain ⟨ih₁, ih₂, ih₃⟩ := ih (fun x hx => h x (List.mem_cons_of_mem s hx))
    have hred : emitSegments api cfg message_dict (s :: rest) =
        ({ message_dict with record := s.insert "embeddings" (.arr (v.map .num)) } ::
          (emitSegments api cfg message_dict rest).1,
          (emitSegments api cfg message_dict rest).2) := by
      rw [emitSegments_cons, hv]
    refine ⟨by rw [hred]; exact ih₁, by rw [hred]; simp [ih₂], ?_⟩
    intro i hi
    match i with
    | 0 => exact ⟨v, hv, by simp [hred]⟩
    | j + 1 =>
      obtain ⟨w, hw₁, hw₂⟩ := ih₃ j (by simpa using hi)
      exact ⟨w, hw₁, by rw [hred]; simpa using hw₂⟩

/-- When the first failing split record fails with a rate-limit error, the
emission loop stops there: it emits exactly the enriched copies for the
preceding splits and raises `AbortedSyncFailedException` with the original
error message embedded. -/
theorem emitSegments_rate_limit (api : EmbedAPI) (cfg : Config)
    (message_dict : RecordMessageDict) (pre : List (Dict JsonVal))
    (s : Dict JsonVal) (post : List (Dict JsonVal)) (m : String)
    (hpre : ∀ x ∈ pre, ∃ v, embedSplitRecord api cfg x = .ok v)
    (hs : embedSplitRecord api cfg s = .error (.openai (.rateLimit m))) :
    (emitSegments api cfg message_dict (pre ++ s :: post)).2 =
      some (.abortedSyncFailed
        ("Sync aborted due to OpenAI rate limit reached. Error message:\n" ++ m)) ∧
    (emitSegments api cfg message_dict (pre ++ s :: post)).1.length = pre.length ∧
    ∀ i, i < pre.length →
      ∃ v, embedSplitRecord api cfg (pre.getD i []) = .ok v ∧
        (emitSegments api cfg message_dict (pre ++ s :: post)).1[i]? =
          some { message_dict with
                   record := (pre.getD i []).insert "embeddings" (.arr (v.map .num)) } := by
  induction pre with
  | nil =>
    have hred : emitSegments api cfg message_dict (s :: post) =
        ([], some (.abortedSyncFailed
          ("Sync aborted due to OpenAI rate limit reached. Error message:\n" ++ m))) := by
      rw [emitSegments_cons, hs]
    simp [hred]
  | cons x rest ih =>
    obtain ⟨v, hv⟩ := hpre x (List.mem_cons_self x rest)
    obtain ⟨ih₁, ih₂, ih₃⟩ := ih (fun y hy => hpre y (List.mem_cons_of_mem x hy))
    have hred : emitSegments api cfg message_dict (x :: (rest ++ s :: post)) =
        ({ message_dict with record := x.insert "embeddings" (.arr (v.map .num)) } ::
          (emitSegments api cfg message_dict (rest ++ s :: post)).1,
          (emitSegments api cfg message_dict (rest ++ s :: post)).2) := by
      rw [emitSegments_cons, hv]
    simp only [List.cons_append]
    refine ⟨by rw [hred]; exact ih₁, by rw [hred]; simp [ih₂], ?_⟩
    intro i hi
    match i with
    | 0 => exact ⟨v, hv, by simp [hred]⟩
    | j + 1 =>
      obtain ⟨w, hw₁, hw₂⟩ := ih₃ j (by simpa using hi)
      exact ⟨w, hw₁, by rw [hred]; simpa using hw₂⟩

/-- Extending a run that ended cleanly: the drive loop on `prior ++ rest`
is the clean run on `prior` followed by the run on `rest` from the
configuration the clean run ended with. -/
theorem processRecordMessages_ok_append (splitter : SplitterOracle) (api : EmbedAPI)
    (cfg₀ : Config) (prior rest : List RecordMessageDict)
    (prevOuts : List RecordMessageDict) (cfg : Config)
    (h : processRecordMessages splitter api cfg₀ prior = (prevOuts, cfg, none)) :
    processRecordMessages splitter api cfg₀ (prior ++ rest) =
      (prevOuts ++ (processRecordMessages splitter api cfg rest).1,
       (processRecordMessages splitter api cfg rest).2.1,
       (processRecordMessages splitter api cfg rest).2.2) := by
  induction prior generalizing cfg₀ prevOuts with
  | nil =>
    have h₁ : (([], cfg₀, none) :
        List RecordMessageDict × Config × Option PyErr) = (prevOuts, cfg, none) := h
    injection h₁ with h₂ h₃
    injection h₃ with h₄ h₅
    subst h₂ h₄
    simp
  | cons msg tl ih =>
    rw [processRecordMessages_cons] at h
    cases hstep : (map_record_message splitter api cfg₀ msg).2.2 with
    | some e =>
      rw [hstep] at h
      injection h with h₁ h₂
      injection h₂ with h₂ h₃
      exact absurd h₃ (by simp)
    | none =>
      rw [hstep] at h
      injection h with h₁ h₂
      injection h₂ with h₂ h₃
      have htl : processRecordMessages splitter api
          (map_record_message splitter api cfg₀ msg).2.1 tl =
          ((processRecordMessages splitter api
              (map_record_message splitter api cfg₀ msg).2.1 tl).1, cfg, none) := by
        rw [← h₂, ← h₃]
      have hext := ih _ _ htl
      show processRecordMessages splitter api cfg₀ (msg :: (tl ++ rest)) = _
      rw [processRecordMessages_cons, hstep, hext, ← h₁]
      simp

/-- On the splitting path (text present, `split_documents` not false),
`split_record` yields one enriched copy of the record per segment, in
order, with the generator running to completion and the configuration
updated in place. -/
theorem split_record_split_on (splitter : SplitterOracle) (cfg : Config)
    (record : Dict JsonVal) (raw : JsonVal)
    (h₁ : Dict.get? record cfg.document_text_property = some raw)
    (h₂ : cfg.split_documents.getD true = true) :
    split_record splitter cfg record =
      .ok ⟨(splitter (effectiveSplitterConfig cfg) raw).enum.map (fun p =>
          ((record.insert cfg.document_text_property (.str p.2)).insert
              cfg.document_metadata_property
              ((Dict.get? record cfg.document_metadata_property).getD (.obj []))).insert
            "segment_number" (.int p.1)),
        none, configAfterSplit cfg⟩ := by
  unfold split_record
  rw [h₁]
  simp [h₂]

/-- When the configured text property is missing from the record, the
first step of the generator raises `KeyError`. -/
theorem split_record_key_error (splitter : SplitterOracle) (cfg : Config)
    (record : Dict JsonVal)
    (h : Dict.get? record cfg.document_text_property = none) :
    split_record splitter cfg record = .error (.keyError cfg.document_text_property) := by
  unfold split_record
  rw [h]

/-- On the short-circuit path (`split_documents = false`), the generator
yields nothing; the record survives only as the discarded
`StopIteration` value, and the configuration is untouched. -/
theorem split_record_no_split (splitter : SplitterOracle) (cfg : Config)
    (record : Dict JsonVal) (raw : JsonVal)
    (h₁ : Dict.get? record cfg.document_text_property = some raw)
    (h₂ : cfg.split_documents.getD true = false) :
    split_record splitter cfg record = .ok ⟨[], some record, cfg⟩ := by
  unfold split_record
  rw [h₁]
  simp [h₂]

/-- Unfolding `map_record_message` once `split_record` is known to have
succeeded. -/
theorem map_record_message_split_ok (splitter : SplitterOracle) (api : EmbedAPI)
    (cfg : Config) (message_dict : RecordMessageDict) (ys : List (Dict JsonVal))
    (rv : Option (Dict JsonVal)) (cfg₁ : Config)
    (h : split_record splitter cfg message_dict.record = .ok ⟨ys, rv, cfg₁⟩) :
    map_record_message splitter api cfg message_dict =
      ((emitSegments api cfg₁ message_dict ys).1, cfg₁,
        (emitSegments api cfg₁ message_dict ys).2) := by
  unfold map_record_message
  rw [h]

/-- Embedding one record yielded by the splitting path reduces to
`get_embeddings` on that segment's text with the configured key. -/
theorem embedSplitRecord_yielded (api : EmbedAPI) (cfg : Config)
    (record : Dict JsonVal) (md : JsonVal) (i : Int) (seg : String)
    (hd₁ : cfg.document_text_property ≠ "segment_number")
    (hd₃ : cfg.document_metadata_property ≠ cfg.document_text_property) :
    embedSplitRecord api (configAfterSplit cfg)
        (((record.insert cfg.document_text_property (.str seg)).insert
            cfg.document_metadata_property md).insert "segment_number" (.int i)) =
      get_embeddings api seg cfg.openai_api_key "text-embedding-ada-002" := by
  unfold embedSplitRecord
  rw [configAfterSplit_document_text_property,
    Dict.get?_insert_ne _ _ _ _ hd₁, Dict.get?_insert_ne _ _ _ _ (Ne.symm hd₃),
    Dict.get?_insert_self, configAfterSplit_openai_api_key]

/-- Field-level description of an output record: the four written fields
hold the segment text, the metadata, the segment number and the embedding
vector, and every other key reads through to the original record. -/
theorem yielded_record_get (cfg : Config) (record : Dict JsonVal) (md : JsonVal)
    (i : Int) (seg : String) (v : List Rat)
    (hd₁ : cfg.document_text_property ≠ "segment_number")
    (hd₂ : cfg.document_text_property ≠ "embeddings")
    (hd₃ : cfg.document_metadata_property ≠ cfg.document_text_property)
    (hd₄ : cfg.document_metadata_property ≠ "segment_number")
    (hd₅ : cfg.document_metadata_property ≠ "embeddings") :
    Dict.get? ((((record.insert cfg.document_text_property (.str seg)).insert
          cfg.document_metadata_property md).insert "segment_number" (.int i)).insert
        "embeddings" (.arr (v.map .num))) cfg.document_text_property =
      some (.str seg) ∧
    Dict.get? ((((record.insert cfg.document_text_property (.str seg)).insert
          cfg.document_metadata_property md).insert "segment_number" (.int i)).insert
        "embeddings" (.arr (v.map .num))) cfg.document_metadata_property = some md ∧
    Dict.get? ((((record.insert cfg.document_text_property (.str seg)).insert
          cfg.document_metadata_property md).insert "segment_number" (.int i)).insert
        "embeddings" (.arr (v.map .num))) "segment_number" = some (.int i) ∧
    Dict.get? ((((record.insert cfg.document_text_property (.str seg)).insert
          cfg.document_metadata_property md).insert "segment_number" (.int i)).insert
        "embeddings" (.arr (v.map .num))) "embeddings" = some (.arr (v.map .num)) ∧
    ∀ k, k ≠ cfg.document_text_property → k ≠ cfg.document_metadata_property →
      k ≠ "segment_number" → k ≠ "embeddings" →
      Dict.get? ((((record.insert cfg.document_text_property (.str seg)).insert
            cfg.document_metadata_property md).insert "segment_number" (.int i)).insert
          "embeddings" (.arr (v.map .num))) k = Dict.get? record k := by
  have hse : ("segment_number" : String) ≠ "embeddings" := by decide
  refine ⟨?_, ?_, ?_, ?_, ?_⟩
  · rw [Dict.get?_insert_ne _ _ _ _ hd₂, Dict.get?_insert_ne _ _ _ _ hd₁,
      Dict.get?_insert_ne _ _ _ _ (Ne.symm hd₃), Dict.get?_insert_self]
  · rw [Dict.get?_insert_ne _ _ _ _ hd₅, Dict.get?_insert_ne _ _ _ _ hd₄,
      Dict.get?_insert_self]
  · rw [Dict.get?_insert_ne _ _ _ _ hse, Dict.get?_insert_self]
  · rw [Dict.get?_insert_self]
  · intro k hk₁ hk₂ hk₃ hk₄
    rw [Dict.get?_insert_ne _ _ _ _ hk₄, Dict.get?_insert_ne _ _ _ _ hk₃,
      Dict.get?_insert_ne _ _ _ _ hk₂, Dict.get?_insert_ne _ _ _ _ hk₁]

/-- C5: for every chunk produced from an input record, the emitted output
record is a copy of the input record in which the configured text field
holds the chunk's text, the configured metadata field holds the record's
metadata, `segment_number` is the chunk's zero-based index in production
order, `embeddings` is the vector returned for the chunk's text, and
every other field is unchanged; one output record per chunk, in order,
with no error.  (The configured text and metadata field names are assumed
distinct from each other and from the two fields the mapper writes.) -/
theorem c5_output_record_shape (splitter : SplitterOracle) (api : EmbedAPI)
    (cfg : Config) (message_dict : RecordMessageDict) (raw : JsonVal)
    (vecs : Nat → List Rat)
    (h₁ : Dict.get? message_dict.record cfg.document_text_property = some raw)
    (h₂ : cfg.split_documents.getD true = true)
    (hd₁ : cfg.document_text_property ≠ "segment_number")
    (hd₂ : cfg.document_text_property ≠ "embeddings")
    (hd₃ : cfg.document_metadata_property ≠ cfg.document_text_property)
    (hd₄ : cfg.document_metadata_property ≠ "segment_number")
    (hd₅ : cfg.document_metadata_property ≠ "embeddings")
    (hembed : ∀ (i : Nat) (seg : String),
      (splitter (effectiveSplitterConfig cfg) raw)[i]? = some seg →
      get_embeddings api seg cfg.openai_api_key "text-embedding-ada-002" =
        .ok (vecs i)) :
    (map_record_message splitter api cfg message_dict).2.2 = none ∧
    (map_record_message splitter api cfg message_dict).2.1 = configAfterSplit cfg ∧
    (map_record_message splitter api cfg message_dict).1.length =
      (splitter (effectiveSplitterConfig cfg) raw).length ∧
    ∀ (i : Nat) (seg : String),
      (splitter (effectiveSplitterConfig cfg) raw)[i]? = some seg →
      ∃ m₁ : RecordMessageDict,
        (map_record_message splitter api cfg message_dict).1[i]? = some m₁ ∧
        m₁.rest = message_dict.rest ∧
        Dict.get? m₁.record cfg.document_text_property = some (.str seg) ∧
        Dict.get? m₁.record cfg.document_metadata_property =
          some ((Dict.get? message_dict.record cfg.document_metadata_property).getD
            (.obj [])) ∧
        Dict.get? m₁.record "segment_number" = some (.int i) ∧
        Dict.get? m₁.record "embeddings" = some (.arr ((vecs i).map .num)) ∧
        ∀ k, k ≠ cfg.document_text_property → k ≠ cfg.document_metadata_property →
          k ≠ "segment_number" → k ≠ "embeddings" →
          Dict.get? m₁.record k = Dict.get? message_dict.record k := by
  have hsplit := split_record_split_on splitter cfg message_dict.record raw h₁ h₂
  have hmm := map_record_message_split_ok splitter api cfg message_dict _ _ _ hsplit
  set Y := (splitter (effectiveSplitterConfig cfg) raw).enum.map (fun p =>
      ((message_dict.record.insert cfg.document_text_property (.str p.2)).insert
          cfg.document_metadata_property
          ((Dict.get? message_dict.record cfg.document_metadata_property).getD
            (.obj []))).insert
        "segment_number" (.int p.1)) with hY
  have hok : ∀ s ∈ Y, ∃ v, embedSplitRecord api (configAfterSplit cfg) s = .ok v := by
    intro s hs
    rw [hY] at hs
    obtain ⟨p, hp, rfl⟩ := List.mem_map.mp hs
    obtain ⟨i, seg⟩ := p
    have hp₁ : (splitter (effectiveSplitterConfig cfg) raw)[i]? = some seg := by
      simpa using List.mem_enum_iff_getElem?.mp hp
    refine ⟨vecs i, ?_⟩
    rw [embedSplitRecord_yielded api cfg message_dict.record _ _ _ hd₁ hd₃]
    exact hembed i seg hp₁
  obtain ⟨e₁, e₂, e₃⟩ := emitSegments_all_ok api (configAfterSplit cfg) message_dict Y hok
  rw [hmm]
  refine ⟨e₁, rfl, ?_, ?_⟩
  · show (emitSegments api (configAfterSplit cfg) message_dict Y).1.length = _
    rw [e₂, hY]
    simp [List.enum_length]
  · intro i seg hseg
    have hYi : Y[i]? = some
        (((message_dict.record.insert cfg.document_text_property (.str seg)).insert
            cfg.document_metadata_property
            ((Dict.get? message_dict.record cfg.document_metadata_property).getD
              (.obj []))).insert
          "segment_number" (.int i)) := by
      rw [hY]
      simp [List.getElem?_enum, hseg]
    have hilt : i < Y.length := by
      rw [hY]
      have := (List.getElem?_eq_some.mp hseg).1
      simpa [List.enum_length] using this
    obtain ⟨v, hv, hemit⟩ := e₃ i hilt
    have hgetD : Y.getD i [] =
        ((message_dict.record.insert cfg.document_text_property (.str seg)).insert
            cfg.document_metadata_property
            ((Dict.get? message_dict.record cfg.document_metadata_property).getD
              (.obj []))).insert
          "segment_number" (.int i) := by
      rw [List.getD_eq_getElem?_getD, hYi]
      rfl
    rw [hgetD] at hv hemit
    rw [embedSplitRecord_yielded api cfg message_dict.record _ _ _ hd₁ hd₃] at hv
    have hveq : v = vecs i := by
      have hvv := hembed i seg hseg
      rw [hvv] at hv
      injection hv with hinj
      exact hinj.symm
    subst hveq
    obtain ⟨f₁, f₂, f₃, f₄, f₅⟩ := yielded_record_get cfg message_dict.record
      ((Dict.get? message_dict.record cfg.document_metadata_property).getD (.obj []))
      i seg (vecs i) hd₁ hd₂ hd₃ hd₄ hd₅
    exact ⟨_, hemit, rfl, f₁, f₂, f₃, f₄, f₅⟩

/-- Witness for C5: a two-segment split of `recHello` under the defaulted
configuration, embedded with the fixed endpoint. -/
theorem c5_witness :
    (Dict.get? recHello defaultedConfig.document_text_property =
      some (.str "hello world")) ∧
    defaultedConfig.split_documents.getD true = true ∧
    ((map_record_message twoChunkSplitter fixedApi defaultedConfig
        ⟨recHello, [("type", .str "RECORD")]⟩).2.2 = none ∧
      (map_record_message twoChunkSplitter fixedApi defaultedConfig
        ⟨recHello, [("type", .str "RECORD")]⟩).2.1 = configAfterSplit defaultedConfig ∧
      (map_record_message twoChunkSplitter fixedApi defaultedConfig
        ⟨recHello, [("type", .str "RECORD")]⟩).1.length =
        (twoChunkSplitter (effectiveSplitterConfig defaultedConfig)
          (.str "hello world")).length ∧
      ∀ (i : Nat) (seg : String),
        (twoChunkSplitter (effectiveSplitterConfig defaultedConfig)
            (.str "hello world"))[i]? = some seg →
        ∃ m₁ : RecordMessageDict,
          (map_record_message twoChunkSplitter fixedApi defaultedConfig
              ⟨recHello, [("type", .str "RECORD")]⟩).1[i]? = some m₁ ∧
          m₁.rest = [("type", .str "RECORD")] ∧
          Dict.get? m₁.record defaultedConfig.document_text_property =
            some (.str seg) ∧
          Dict.get? m₁.record defaultedConfig.document_metadata_property =
            some ((Dict.get? recHello
              defaultedConfig.document_metadata_property).getD (.obj [])) ∧
          Dict.get? m₁.record "segment_number" = some (.int i) ∧
          Dict.get? m₁.record "embeddings" =
            some (.arr (List.map JsonVal.num [(1 : Rat), (2 : Rat)])) ∧
          ∀ k, k ≠ defaultedConfig.document_text_property →
            k ≠ defaultedConfig.document_metadata_property →
            k ≠ "segment_number" → k ≠ "embeddings" →
            Dict.get? m₁.record k = Dict.get? recHello k) :=
  ⟨rfl, rfl,
    c5_output_record_shape twoChunkSplitter fixedApi defaultedConfig
      ⟨recHello, [("type", .str "RECORD")]⟩ (.str "hello world")
      (fun _ => [(1 : Rat), (2 : Rat)]) rfl rfl (by decide) (by decide) (by decide)
      (by decide) (by decide) (fun _ _ _ => rfl)⟩

/-- C3: if the embedding call for chunk `i` of a record raises a rate-limit
error, the run raises `AbortedSyncFailedException` with the original error
message embedded, emits no output record for chunk `i` or any later chunk
of that record, and every output record already emitted — for the earlier
chunks of the record and for all earlier record messages — remains emitted
unchanged. -/
theorem c3_rate_limit_aborts_sync (splitter : SplitterOracle) (api : EmbedAPI)
    (cfg₀ : Config) (prior : List RecordMessageDict)
    (prevOuts : List RecordMessageDict) (cfg : Config)
    (message_dict : RecordMessageDict) (later : List RecordMessageDict)
    (pre : List (Dict JsonVal)) (s : Dict JsonVal) (post : List (Dict JsonVal))
    (rv : Option (Dict JsonVal)) (cfg₁ : Config) (m : String)
    (hprior : processRecordMessages splitter api cfg₀ prior = (prevOuts, cfg, none))
    (hsplit : split_record splitter cfg message_dict.record =
      .ok ⟨pre ++ s :: post, rv, cfg₁⟩)
    (hpre : ∀ x ∈ pre, ∃ v, embedSplitRecord api cfg₁ x = .ok v)
    (hs : embedSplitRecord api cfg₁ s = .error (.openai (.rateLimit m))) :
    ∃ outs : List RecordMessageDict,
      processRecordMessages splitter api cfg₀ (prior ++ message_dict :: later) =
        (prevOuts ++ outs, cfg₁,
          some (.abortedSyncFailed
            ("Sync aborted due to OpenAI rate limit reached. Error message:\n" ++ m))) ∧
      outs.length = pre.length ∧
      ∀ i, i < pre.length →
        ∃ v : List Rat, embedSplitRecord api cfg₁ (pre.getD i []) = .ok v ∧
          outs[i]? = some { message_dict with
            record := (pre.getD i []).insert "embeddings" (.arr (v.map .num)) } := by
  obtain ⟨r₁, r₂, r₃⟩ := emitSegments_rate_limit api cfg₁ message_dict pre s post m hpre hs
  have hmm := map_record_message_split_ok splitter api cfg message_dict _ _ _ hsplit
  have hmr : map_record_message splitter api cfg message_dict =
      ((emitSegments api cfg₁ message_dict (pre ++ s :: post)).1, cfg₁,
        some (.abortedSyncFailed
          ("Sync aborted due to OpenAI rate limit reached. Error message:\n" ++ m))) := by
    rw [hmm, r₁]
  have happ := processRecordMessages_ok_append splitter api cfg₀ prior
    (message_dict :: later) prevOuts cfg hprior
  refine ⟨(emitSegments api cfg₁ message_dict (pre ++ s :: post)).1, ?_, r₂, r₃⟩
  rw [happ, processRecordMessages_cons, hmr]

/-- Witness for C3: a two-segment record whose second segment is
rate-limited by the endpoint; only the first segment's output survives. -/
theorem c3_witness :
    (processRecordMessages twoChunkSplitter rateLimitOnBetaApi defaultedConfig [] =
      ([], defaultedConfig, none)) ∧
    (split_record twoChunkSplitter defaultedConfig recHello =
      .ok ⟨[segAlphaRecord] ++ segBetaRecord :: [], none, defaultedConfig⟩) ∧
    (embedSplitRecord rateLimitOnBetaApi defaultedConfig segBetaRecord =
      .error (.openai (.rateLimit "quota exhausted"))) ∧
    ∃ outs : List RecordMessageDict,
      processRecordMessages twoChunkSplitter rateLimitOnBetaApi defaultedConfig
          ([] ++ (⟨recHello, []⟩ : RecordMessageDict) :: []) =
        ([] ++ outs, defaultedConfig,
          some (.abortedSyncFailed
            ("Sync aborted due to OpenAI rate limit reached. Error message:\n" ++
              "quota exhausted"))) ∧
      outs.length = [segAlphaRecord].length ∧
      ∀ i, i < [segAlphaRecord].length →
        ∃ v : List Rat,
          embedSplitRecord rateLimitOnBetaApi defaultedConfig
            ([segAlphaRecord].getD i []) = .ok v ∧
          outs[i]? = some ⟨([segAlphaRecord].getD i []).insert "embeddings"
            (.arr (v.map .num)), []⟩ := by
  refine ⟨rfl, rfl, rfl, ?_⟩
  exact c3_rate_limit_aborts_sync twoChunkSplitter rateLimitOnBetaApi
    defaultedConfig [] [] defaultedConfig ⟨recHello, []⟩ []
    [segAlphaRecord] segBetaRecord [] none defaultedConfig "quota exhausted"
    rfl rfl
    (fun x hx => by
      rw [List.mem_singleton.mp hx]
      exact ⟨[(1 : Rat), (2 : Rat)], rfl⟩)
    rfl

/-- C8 counterexample: `split_record` on a configuration carrying an
(empty) `splitter_config` object hands back a changed configuration — the
chunking defaults were written into the nested object it aliases. -/
theorem c8_counterexample :
    ∃ out : SplitOutcome,
      split_record oneChunkSplitter cfgEmptySplitter recHello = .ok out ∧
      out.config ≠ cfgEmptySplitter ∧
      out.config.splitter_config =
        some [("chunk_size", .int 1000), ("chunk_overlap", .int 200)] ∧
      cfgEmptySplitter.splitter_config = some [] := by
  refine ⟨_, rfl, ?_, rfl, rfl⟩
  intro h
  have h₁ : cfgEmptySplitter.splitter_config =
      some [("chunk_size", JsonVal.int 1000), ("chunk_overlap", JsonVal.int 200)] := by
    rw [← h]
    rfl
  injection h₁ with h₂
  exact List.noConfusion h₂

/-- C8 amended: all operations leave the configuration unchanged except
the record-splitting path: when splitting runs and the configuration
carries a `splitter_config` object, `split_record` (and
`map_record_message` through it) inserts the missing `chunk_size` /
`chunk_overlap` defaults into that nested object in place; in every other
case the configuration comes back unchanged.  The schema transform, the
embedding client and the validator read the configuration purely. -/
theorem c8_amended_config_updates (splitter : SplitterOracle) (cfg : Config)
    (record : Dict JsonVal) :
    (∀ out, split_record splitter cfg record = .ok out →
      out.config =
        (if cfg.split_documents.getD true = true ∧ cfg.splitter_config.isSome = true
          then { cfg with splitter_config := some (effectiveSplitterConfig cfg) }
          else cfg)) ∧
    (cfg.splitter_config = none →
      ∀ out, split_record splitter cfg record = .ok out → out.config = cfg) ∧
    ∀ (api : EmbedAPI) (message_dict : RecordMessageDict),
      (map_record_message splitter api cfg message_dict).2.1 = cfg ∨
      (map_record_message splitter api cfg message_dict).2.1 =
        { cfg with splitter_config := some (effectiveSplitterConfig cfg) } := by
  have hconfig : ∀ (r : Dict JsonVal) (out : SplitOutcome),
      split_record splitter cfg r = .ok out →
      out.config =
        (if cfg.split_documents.getD true = true ∧ cfg.splitter_config.isSome = true
          then { cfg with splitter_config := some (effectiveSplitterConfig cfg) }
          else cfg) := by
    intro r out hout
    cases hget : Dict.get? r cfg.document_text_property with
    | none =>
      rw [split_record_key_error splitter cfg r hget] at hout
      simp at hout
    | some raw =>
      by_cases hsd : cfg.split_documents.getD true = false
      · rw [split_record_no_split splitter cfg r raw hget hsd] at hout
        have hout₁ := (Except.ok.injEq _ _).mp hout
        rw [← hout₁]
        rw [if_neg (by simp [hsd])]
      · have hsd₁ : cfg.split_documents.getD true = true := by
          cases hb : cfg.split_documents.getD true
          · exact absurd hb hsd
          · rfl
        rw [split_record_split_on splitter cfg r raw hget hsd₁] at hout
        have hout₁ := (Except.ok.injEq _ _).mp hout
        rw [← hout₁]
        show configAfterSplit cfg = _
        unfold configAfterSplit
        cases hsc : cfg.splitter_config with
        | none => rw [if_neg (by simp [hsc])]
        | some sc => rw [if_pos (by simp [hsd₁, hsc])]
  refine ⟨hconfig record, fun hnone out hout => ?_, fun api message_dict => ?_⟩
  · rw [hconfig record out hout, if_neg (by simp [hnone])]
  · cases hsr : split_record splitter cfg message_dict.record with
    | error e =>
      left
      unfold map_record_message
      rw [hsr]
    | ok out =>
      obtain ⟨ys, rv, cfg₁⟩ := out
      have hmm := map_record_message_split_ok splitter api cfg message_dict _ _ _ hsr
      have hc := hconfig message_dict.record _ hsr
      by_cases hcond : cfg.split_documents.getD true = true ∧
          cfg.splitter_config.isSome = true
      · right
        rw [hmm]
        rw [if_pos hcond] at hc
        exact hc
      · left
        rw [hmm]
        rw [if_neg hcond] at hc
        exact hc

/-- Witness for C8's amended claim: with an empty `splitter_config` object
present, the configuration handed back by `split_record` is the one with
the defaults inserted. -/
theorem c8_witness :
    (cfgEmptySplitter.split_documents.getD true = true ∧
      cfgEmptySplitter.splitter_config.isSome = true) ∧
    (SplitOutcome.config
        ⟨[[("page_content", .str "hello world"), ("metadata", .obj []),
            ("segment_number", .int 0)]], none,
          { cfgEmptySplitter with splitter_config :=
              (some [("chunk_size", .int 1000), ("chunk_overlap", .int 200)]) }⟩ =
      (if cfgEmptySplitter.split_documents.getD true = true ∧
          cfgEmptySplitter.splitter_config.isSome = true
        then { cfgEmptySplitter with
                 splitter_config := some (effectiveSplitterConfig cfgEmptySplitter) }
        else cfgEmptySplitter)) :=
  ⟨⟨rfl, rfl⟩,
    (c8_amended_config_updates oneChunkSplitter cfgEmptySplitter recHello).1 _ rfl⟩

/-- C6: an input record whose chunking produces zero segments yields zero
output records and raises no error. -/
theorem c6_zero_segments_zero_outputs (splitter : SplitterOracle) (api : EmbedAPI)
    (cfg : Config) (message_dict : RecordMessageDict) (raw : JsonVal)
    (h₁ : message_dict.record.get? cfg.document_text_property = some raw)
    (h₂ : cfg.split_documents.getD true = true)
    (h₃ : splitter (effectiveSplitterConfig cfg) raw = []) :
    map_record_message splitter api cfg message_dict =
      ([], configAfterSplit cfg, none) := by
  have hsplit : split_record splitter cfg message_dict.record =
      .ok ⟨[], none, configAfterSplit cfg⟩ := by
    unfold split_record
    rw [h₁]
    simp [h₂, h₃]
  unfold map_record_message
  rw [hsplit]
  rfl

/-- Witness for C6: a record with empty text and a splitter that produces
no segments. -/
theorem c6_witness :
    (Dict.get? [("page_content", JsonVal.str "")]
        defaultedConfig.document_text_property = some (.str "")) ∧
    defaultedConfig.split_documents.getD true = true ∧
    emptySplitter (effectiveSplitterConfig defaultedConfig) (.str "") = [] ∧
    map_record_message emptySplitter fixedApi defaultedConfig
        ⟨[("page_content", .str "")], []⟩ =
      ([], configAfterSplit defaultedConfig, none) :=
  ⟨rfl, rfl, rfl,
    c6_zero_segments_zero_outputs emptySplitter fixedApi defaultedConfig
      ⟨[("page_content", .str "")], []⟩ (.str "") rfl rfl rfl⟩

/-- C1: the spec says that with `split_documents = false` the original
(text, metadata) passes through as a single unit, producing exactly one
output record.  In the source, `split_record` is a generator — the
`return record` at line 104 only sets the `StopIteration` value, which the
`for` loop of `map_record_message` discards — so iteration yields no dicts
and zero output records are emitted for the input record. -/
theorem c1_split_documents_false_emits_zero_records :
    split_record oneChunkSplitter cfgNoSplit recHello =
      .ok ⟨[], some recHello, cfgNoSplit⟩ ∧
    map_record_message oneChunkSplitter fixedApi cfgNoSplit ⟨recHello, []⟩ =
      ([], cfgNoSplit, none) := by
  constructor <;> rfl

/-- C9: a non-raising call of `_validate_config` raises nothing, but —
the method body having no `return` statement — it returns Python `None`
rather than the empty warnings/errors tuple promised by its own docstring
and return annotation, whether or not an API key is resolvable. -/
theorem c9_validate_config_non_raising_returns_none :
    _validate_config cfgNoKey [] false false = .ok none ∧
    _validate_config defaultedConfig ["OPENAI_API_KEY"] false true = .ok none ∧
    (Option.none : Option (List String × List String)) ≠
      some ([], []) := by
  refine ⟨rfl, rfl, by simp⟩

/-- C10: when the record lacks the configured document-text property, the
unguarded lookup at line 100 raises `KeyError` before any segment is
produced — also when `split_documents` is false — and `map_record_message`
propagates it, emitting nothing. -/
theorem c10_missing_text_property_raises_key_error (splitter : SplitterOracle)
    (cfg : Config) (record : Dict JsonVal)
    (h : record.get? cfg.document_text_property = none) :
    split_record splitter cfg record = .error (.keyError cfg.document_text_property) ∧
    ∀ (api : EmbedAPI) (rest : Dict JsonVal),
      map_record_message splitter api cfg ⟨record, rest⟩ =
        ([], cfg, some (.keyError cfg.document_text_property)) := by
  have h₁ : split_record splitter cfg record = .error (.keyError cfg.document_text_property) := by
    unfold split_record
    rw [h]
  refine ⟨h₁, fun api rest => ?_⟩
  unfold map_record_message
  rw [h₁]

/-- Witness for C10 at a concrete input, with `split_documents = false`. -/
theorem c10_witness :
    (recNoText.get? cfgNoSplit.document_text_property = none) ∧
    split_record oneChunkSplitter cfgNoSplit recNoText =
      .error (.keyError cfgNoSplit.document_text_property) ∧
    map_record_message oneChunkSplitter fixedApi cfgNoSplit ⟨recNoText, []⟩ =
      ([], cfgNoSplit, some (.keyError cfgNoSplit.document_text_property)) := by
  have h : recNoText.get? cfgNoSplit.document_text_property = none := rfl
  obtain ⟨h₁, h₂⟩ := c10_missing_text_property_raises_key_error oneChunkSplitter cfgNoSplit recNoText h
  exact ⟨h, h₁, h₂ fixedApi []⟩

/-- C7: `_validate_config` raises exactly when error-raising validation is
requested, the `openai_api_key` setting is absent and the `OPENAI_API_KEY`
environment variable is absent; the raised error is a
`ConfigValidationError` whose message names the explicit setting, the
plugin-specific environment variable and the generic environment
variable. -/
theorem c7_validate_config_raises_iff (cfg : Config) (env : List String)
    (raise_errors warnings_as_errors : Bool) :
    ((∃ e, _validate_config cfg env raise_errors warnings_as_errors = .error e) ↔
      (raise_errors = true ∧ cfg.openai_api_key = none ∧
        env.contains "OPENAI_API_KEY" = false)) ∧
    (∀ e, _validate_config cfg env raise_errors warnings_as_errors = .error e →
      e = .configValidationError missingKeyMessage) ∧
    missingKeyMessage =
      "Must set at least one of the following: `openai_api_key` setting, `MAP_OPENAI_EMBEDDINGS_OPEN_API_KEY` env var, or  `OPENAI_API_KEY` env var." := by
  unfold _validate_config
  by_cases hc : raise_errors && cfg.openai_api_key.isNone && !(env.contains "OPENAI_API_KEY")
  · rw [if_pos hc]
    simp only [Bool.and_eq_true, Bool.not_eq_true'] at hc
    refine ⟨?_, ?_, rfl⟩
    · simp [hc.1.1, Option.isNone_iff_eq_none.mp hc.1.2]
      simpa using hc.2
    · intro e he
      exact ((Except.error.injEq _ _).mp he).symm
  · rw [if_neg hc]
    simp only [Bool.and_eq_true, Bool.not_eq_true', not_and] at hc
    refine ⟨?_, ?_, rfl⟩
    · constructor
      · rintro ⟨e, he⟩
        cases he
      · rintro ⟨h₁, h₂, h₃⟩
        exact absurd h₃ (hc ⟨h₁, Option.isNone_iff_eq_none.mpr h₂⟩)
    · intro e he
      cases he

/-- Witness for C7 at a concrete configuration with no resolvable key. -/
theorem c7_witness :
    (∃ e, _validate_config cfgNoKey [] true false = .error e) ∧
    (true = true ∧ cfgNoKey.openai_api_key = none ∧
      ([] : List String).contains "OPENAI_API_KEY" = false) := by
  refine ⟨(c7_validate_config_raises_iff cfgNoKey [] true false).1.mpr ⟨rfl, rfl, rfl⟩,
    rfl, rfl, rfl⟩

/-- C4: the string submitted to the embeddings endpoint is the input text
with every newline character replaced by a single space and every other
character untouched — same length, pointwise related — and it is submitted
as the single element of the `input` array. -/
theorem c4_newlines_replaced_in_submitted_text (text : String) (i : Nat) (c : Char)
    (h : text.data[i]? = some c) :
    ∃ t₁, submittedInput text = [t₁] ∧
      t₁.data.length = text.data.length ∧
      t₁.data[i]? = some (if c = '\n' then ' ' else c) := by
  refine ⟨replaceNewlines text, rfl, by simp [replaceNewlines], ?_⟩
  simp [replaceNewlines, h]

/-- Witness for C4 at `"a\nb"`, position 1 (the newline). -/
theorem c4_witness :
    ("a\nb".data[1]? = some '\n') ∧
    ∃ t₁, submittedInput "a\nb" = [t₁] ∧
      t₁.data.length = "a\nb".data.length ∧
      t₁.data[1]? = some (if '\n' = '\n' then ' ' else '\n') :=
  ⟨by decide, c4_newlines_replaced_in_submitted_text "a\nb" 1 '\n' (by decide)⟩

/-- C2: `map_schema_message` emits exactly one schema message; its
properties are the incoming ones plus `embeddings` (array of numbers) and
`segment_number` (integer), plus the configured metadata property (object
type) exactly when it was not already declared; the key-property list is
the incoming one with `segment_number` appended once at the end; every
other property keeps its declaration.  (The configured metadata property
name is assumed distinct from the two field names the mapper itself
introduces.) -/
theorem c2_schema_transform (cfg : Config) (message : SchemaMessage)
    (h₁ : cfg.document_metadata_property ≠ "embeddings")
    (h₂ : cfg.document_metadata_property ≠ "segment_number") :
    ∃ m₁, map_schema_message cfg message = [m₁] ∧
      m₁.key_properties = message.key_properties ++ ["segment_number"] ∧
      m₁.rest = message.rest ∧
      m₁.properties.get? "embeddings" = some arrayOfNumbersDescriptor ∧
      m₁.properties.get? "segment_number" = some integerTypeDescriptor ∧
      (message.properties.contains cfg.document_metadata_property = true →
        m₁.properties.get? cfg.document_metadata_property =
          message.properties.get? cfg.document_metadata_property) ∧
      (message.properties.contains cfg.document_metadata_property = false →
        m₁.properties.get? cfg.document_metadata_property = some objectTypeDescriptor) ∧
      ∀ k, k ≠ "embeddings" → k ≠ "segment_number" → k ≠ cfg.document_metadata_property →
        m₁.properties.get? k = message.properties.get? k := by
  have hse : ("embeddings" : String) ≠ "segment_number" := by decide
  set mp := cfg.document_metadata_property with hmp
  set P₀ := message.properties.insert "embeddings" arrayOfNumbersDescriptor with hP₀
  set Q := if P₀.contains mp then P₀ else P₀.insert mp objectTypeDescriptor with hQ
  have hmain : map_schema_message cfg message =
      [⟨Q.insert "segment_number" integerTypeDescriptor,
        message.key_properties ++ ["segment_number"], message.rest⟩] := rfl
  have hcontains : P₀.contains mp = message.properties.contains mp := by
    unfold Dict.contains
    rw [hP₀, Dict.get?_insert_ne _ _ _ _ h₁]
  refine ⟨_, hmain, rfl, rfl, ?_, ?_, ?_, ?_, ?_⟩
  · rw [Dict.get?_insert_ne _ _ _ _ hse, hQ]
    by_cases hmem : P₀.contains mp
    · rw [if_pos hmem, hP₀, Dict.get?_insert_self]
    · rw [if_neg hmem, Dict.get?_insert_ne _ _ _ _ (Ne.symm h₁), hP₀,
        Dict.get?_insert_self]
  · exact Dict.get?_insert_self _ _ _
  · intro hmem
    rw [Dict.get?_insert_ne _ _ _ _ h₂, hQ, if_pos (by rw [hcontains]; exact hmem),
      hP₀, Dict.get?_insert_ne _ _ _ _ h₁]
  · intro hmem
    rw [Dict.get?_insert_ne _ _ _ _ h₂, hQ,
      if_neg (by rw [hcontains, hmem]; exact Bool.false_ne_true),
      Dict.get?_insert_self]
  · intro k hk₁ hk₂ hk₃
    rw [Dict.get?_insert_ne _ _ _ _ hk₂, hQ]
    by_cases hmem : P₀.contains mp
    · rw [if_pos hmem, hP₀, Dict.get?_insert_ne _ _ _ _ hk₁]
    · rw [if_neg hmem, Dict.get?_insert_ne _ _ _ _ hk₃, hP₀,
        Dict.get?_insert_ne _ _ _ _ hk₁]

/-- Witness for C2 at the defaulted configuration and a one-property,
one-key schema that does not declare a metadata property. -/
theorem c2_witness :
    (defaultedConfig.document_metadata_property ≠ "embeddings" ∧
      defaultedConfig.document_metadata_property ≠ "segment_number") ∧
    ∃ m₁, map_schema_message defaultedConfig
        ⟨[("id", integerTypeDescriptor)], ["id"], []⟩ = [m₁] ∧
      m₁.key_properties = ["id"] ++ ["segment_number"] ∧
      m₁.rest = ([] : Dict JsonVal) ∧
      m₁.properties.get? "embeddings" = some arrayOfNumbersDescriptor ∧
      m₁.properties.get? "segment_number" = some integerTypeDescriptor ∧
      (Dict.contains [("id", integerTypeDescriptor)] "metadata" = true →
        m₁.properties.get? "metadata" =
          Dict.get? [("id", integerTypeDescriptor)] "metadata") ∧
      (Dict.contains [("id", integerTypeDescriptor)] "metadata" = false →
        m₁.properties.get? "metadata" = some objectTypeDescriptor) ∧
      ∀ k, k ≠ "embeddings" → k ≠ "segment_number" → k ≠ "metadata" →
        m₁.properties.get? k = Dict.get? [("id", integerTypeDescriptor)] k :=
  ⟨⟨by decide, by decide⟩,
    c2_schema_transform defaultedConfig ⟨[("id", integerTypeDescriptor)], ["id"], []⟩
      (by decide) (by decide)⟩

end MapGptEmbeddings
